import Mathlib

/-!
Shallow embedding of `src/logging_utils.py`, a minimal logging facade over
Python's `logging` module.  The module configures the process-wide root
logger once at import time (`logging.basicConfig(level=INFO,
format='%(asctime)s - %(levelname)s - %(message)s')`) and exposes
`log_info` / `log_error`, which forward the caller's string to the sink.

Modelling choices:
* The process-wide logging state is a `LoggingState`: the optional root
  configuration (threshold + format template), the list of lines written to
  the sink so far, a flag saying whether the sink's raw write fails, and a
  counter for errors absorbed by the handler's own error channel
  (CPython's `Handler.handleError`).
* Timestamps are wall-clock; each call takes the formatted `asctime`
  string as an explicit parameter.
* Rendering is a faithful one-pass `%(key)s` template substitution over
  the format string, as `Formatter.format` performs `fmt % record.__dict__`.
* `logging.info` / `logging.error` call `basicConfig()` (default level
  WARNING, default format) first when the root logger has no handlers,
  create a record only when the level passes the threshold, and build the
  message with `record.getMessage()`, which applies `%`-interpolation only
  when positional args were supplied.
* Rendered lines are `List Char` so that structural facts (suffix,
  field-splitting) are plain list lemmas.
-/

namespace LoggingUtils

/-- Numeric level of `logging.DEBUG`. -/
def DEBUG : Nat := 10

/-- Numeric level of `logging.INFO`. -/
def INFO : Nat := 20

/-- Numeric level of `logging.WARNING`. -/
def WARNING : Nat := 30

/-- Numeric level of `logging.ERROR`. -/
def ERROR : Nat := 40

/-- Numeric level of `logging.CRITICAL`. -/
def CRITICAL : Nat := 50

/-- `logging.getLevelName` for the standard levels. -/
def levelName (lvl : Nat) : String :=
  if lvl = 50 then "CRITICAL"
  else if lvl = 40 then "ERROR"
  else if lvl = 30 then "WARNING"
  else if lvl = 20 then "INFO"
  else if lvl = 10 then "DEBUG"
  else if lvl = 0 then "NOTSET"
  else "Level " ++ toString lvl

/-- The format string passed to `basicConfig` at line 6 of the source. -/
def defaultFormat : String := "%(asctime)s - %(levelname)s - %(message)s"

/-- The format `basicConfig()` falls back to when called with no arguments
from inside `logging.info` / `logging.error` (CPython `_STYLES` default). -/
def defaultBasicFormat : String := "%(levelname)s:%(name)s:%(message)s"

/-- The root logger's name. -/
def rootName : String := "root"

/-- Root-logger configuration: the severity threshold and the format
template installed by `basicConfig`. -/
structure LogConfig where
  threshold : Nat
  fmt : String
deriving DecidableEq, Repr

/-- The process-wide logging state.  `config` is `none` until `basicConfig`
has run; `output` is the sequence of lines written to the sink;
`sinkBroken` models a sink whose raw write raises; `sinkErrors` counts
failures absorbed by the handler's own error channel (`handleError`). -/
structure LoggingState where
  config : Option LogConfig
  output : List (List Char)
  sinkBroken : Bool
  sinkErrors : Nat
deriving DecidableEq, Repr

/-- The state before the module is imported: unconfigured, nothing
written, sink healthy. -/
def initialState : LoggingState := ⟨none, [], false, 0⟩

/-- `logging.basicConfig(level=..., format=...)`: installs the root
handler and configuration, a no-op when the root logger already has a
handler. -/
def basicConfig (level : Nat) (fmt : String) (s : LoggingState) : LoggingState :=
  match s.config with
  | some _ => s
  | none => ⟨some ⟨level, fmt⟩, s.output, s.sinkBroken, s.sinkErrors⟩

/-- The characters of the template key `%(asctime)s`. -/
def keyAsctime : List Char := ['%', '(', 'a', 's', 'c', 't', 'i', 'm', 'e', ')', 's']

/-- The characters of the template key `%(levelname)s`. -/
def keyLevelname : List Char := ['%', '(', 'l', 'e', 'v', 'e', 'l', 'n', 'a', 'm', 'e', ')', 's']

/-- The characters of the template key `%(message)s`. -/
def keyMessage : List Char := ['%', '(', 'm', 'e', 's', 's', 'a', 'g', 'e', ')', 's']

/-- The characters of the template key `%(name)s`. -/
def keyName : List Char := ['%', '(', 'n', 'a', 'm', 'e', ')', 's']

/-- One left-to-right pass of `%`-dict substitution over the format
template, for the record fields the two format strings of this module use.
Substituted values are spliced in and never rescanned, exactly as
`fmt % record.__dict__` behaves.  Fueled so the definition is structural
and computes by `rfl`/`decide`; `substAll` supplies fuel `fmt.length`,
which suffices since every step consumes at least one template char. -/
def substAllFuel (asctime lvlname nm msg : List Char) :
    Nat → List Char → List Char
  | 0, l => l
  | _ + 1, [] => []
  | n + 1, c :: rest =>
    if keyAsctime.isPrefixOf (c :: rest) then
      asctime ++ substAllFuel asctime lvlname nm msg n (rest.drop 10)
    else if keyLevelname.isPrefixOf (c :: rest) then
      lvlname ++ substAllFuel asctime lvlname nm msg n (rest.drop 12)
    else if keyMessage.isPrefixOf (c :: rest) then
      msg ++ substAllFuel asctime lvlname nm msg n (rest.drop 10)
    else if keyName.isPrefixOf (c :: rest) then
      nm ++ substAllFuel asctime lvlname nm msg n (rest.drop 7)
    else
      c :: substAllFuel asctime lvlname nm msg n rest

/-- Apply the format template to the four record fields. -/
def substAll (fmt asctime lvlname nm msg : List Char) : List Char :=
  substAllFuel asctime lvlname nm msg fmt.length fmt

/-- Positional `%s`-interpolation of `msg % args` (only the `%s`
directive, which is all `record.getMessage` would need here; never
reached by this module, which passes no args). -/
def percentFormat : List Char → List String → List Char
  | [], _ => []
  | '%' :: 's' :: rest, a :: as => a.data ++ percentFormat rest as
  | c :: rest, as => c :: percentFormat rest as

/-- `LogRecord.getMessage`: the message is `%`-interpolated only when
positional args were supplied, otherwise returned verbatim. -/
def getMessage (message : String) (args : List String) : List Char :=
  if args.isEmpty then message.data else percentFormat message.data args

/-- `Formatter.format`: render the record through the configured
template. -/
def render (cfg : LogConfig) (asctime : String) (level : Nat)
    (message : String) (args : List String) : List Char :=
  substAll cfg.fmt.data asctime.data (levelName level).data rootName.data
    (getMessage message args)

/-- The raw `stream.write` of the handler: fails when the sink is broken
(e.g. closed stream), otherwise appends the line. -/
def rawWrite (line : List Char) (s : LoggingState) : Except Unit LoggingState :=
  if s.sinkBroken then Except.error () else
    Except.ok ⟨s.config, s.output ++ [line], s.sinkBroken, s.sinkErrors⟩

/-- `Handler.handleError`: report a write failure on the handler's own
error channel; nothing propagates to the logging caller. -/
def handleError (s : LoggingState) : LoggingState :=
  ⟨s.config, s.output, s.sinkBroken, s.sinkErrors + 1⟩

/-- `StreamHandler.emit`: try the raw write and absorb any failure via
`handleError`. -/
def emit (line : List Char) (s : LoggingState) : LoggingState :=
  match rawWrite line s with
  | Except.ok s2 => s2
  | Except.error _ => handleError s

/-- The module-level `logging.info` / `logging.error` path: run
`basicConfig()` with its defaults if the root logger has no handler yet,
then create, render and emit a record only when `level` passes the
configured threshold. -/
def logAt (level : Nat) (message : String) (args : List String)
    (asctime : String) (s : LoggingState) : LoggingState :=
  let s1 := basicConfig WARNING defaultBasicFormat s
  match s1.config with
  | none => s1
  | some cfg =>
    if cfg.threshold ≤ level then emit (render cfg asctime level message args) s1
    else s1

/-- `def log_info(message): logging.info(message)` (lines 8-9). -/
def log_info (message : String) (asctime : String) (s : LoggingState) :
    LoggingState :=
  logAt INFO message [] asctime s

/-- `def log_error(message): logging.error(message)` (lines 11-12). -/
def log_error (message : String) (asctime : String) (s : LoggingState) :
    LoggingState :=
  logAt ERROR message [] asctime s

/-- Importing the module runs line 6:
`logging.basicConfig(level=logging.INFO, format='%(asctime)s - %(levelname)s - %(message)s')`. -/
def importModule (s : LoggingState) : LoggingState :=
  basicConfig INFO defaultFormat s

/-- Running the file as `__main__`: import-time configuration, then the
two example calls (lines 15-17), then a clean exit.  Returns the final
state and the process exit status. -/
def mainProgram (ts1 ts2 : String) : LoggingState × Nat :=
  (log_error "This is an error message." ts2
    (log_info "This is an info message." ts1 (importModule initialState)), 0)

/-- The field separator of the output format. -/
def sep3 : List Char := [' ', '-', ' ']

/-- `hasEarlyOccur s pre tail = true` iff the pattern `s` occurs in
`pre ++ tail` starting at some position strictly inside `pre`. -/
def hasEarlyOccur (s : List Char) : List Char → List Char → Bool
  | [], _ => false
  | c :: pre, tail => s.isPrefixOf (c :: (pre ++ tail)) || hasEarlyOccur s pre tail

/-- Split a list at the first occurrence of the pattern `s`, returning
the part before and the part after (Python `str.split(sep, 1)`). -/
def splitFirstAux (s : List Char) : List Char → Option (List Char × List Char)
  | [] => none
  | c :: rest =>
    if s.isPrefixOf (c :: rest) then some ([], (c :: rest).drop s.length)
    else
      match splitFirstAux s rest with
      | some (pre, post) => some (c :: pre, post)
      | none => none

/-- Split a line on the first two occurrences of `" - "` into the three
fields timestamp, level name, message (`line.split(' - ', 2)`). -/
def splitTwoFields (l : List Char) : Option (List Char × List Char × List Char) :=
  match splitFirstAux sep3 l with
  | none => none
  | some (f1, r1) =>
    match splitFirstAux sep3 r1 with
    | none => none
    | some (f2, r2) => some (f1, f2, r2)

/-! ### Helper lemmas -/

/-- `basicConfig` is a no-op on an already-configured state. -/
lemma basicConfig_noop (l : Nat) (f : String) (s : LoggingState) (cfg : LogConfig)
    (hc : s.config = some cfg) : basicConfig l f s = s := by
  unfold basicConfig
  rw [hc]

/-- The one-pass substitution applied to the module's format string
produces the three fields joined by the two separators. -/
lemma substAll_defaultFormat (a l n m : List Char) :
    substAll defaultFormat.data a l n m = a ++ (sep3 ++ (l ++ (sep3 ++ m))) := by
  show a ++ (' ' :: '-' :: ' ' :: (l ++ (' ' :: '-' :: ' ' :: (m ++ [])))) = _
  simp [sep3]

/-- Rendering an argument-free INFO record through the configured format. -/
lemma render_info (ts m : String) :
    render ⟨INFO, defaultFormat⟩ ts INFO m [] =
      ts.data ++ (sep3 ++ (("INFO").data ++ (sep3 ++ m.data))) := by
  show substAll defaultFormat.data ts.data ("INFO").data rootName.data m.data = _
  exact substAll_defaultFormat ts.data ("INFO").data rootName.data m.data

/-- Rendering an argument-free ERROR record through the configured format. -/
lemma render_error (ts m : String) :
    render ⟨INFO, defaultFormat⟩ ts ERROR m [] =
      ts.data ++ (sep3 ++ (("ERROR").data ++ (sep3 ++ m.data))) := by
  show substAll defaultFormat.data ts.data ("ERROR").data rootName.data m.data = _
  exact substAll_defaultFormat ts.data ("ERROR").data rootName.data m.data

/-- Full-state equation for `log_info` on a configured state with a
healthy sink. -/
lemma log_info_eq (m ts : String) (s : LoggingState)
    (hc : s.config = some ⟨INFO, defaultFormat⟩) (hok : s.sinkBroken = false) :
    log_info m ts s =
      ⟨s.config, s.output ++ [ts.data ++ (sep3 ++ (("INFO").data ++ (sep3 ++ m.data)))],
        s.sinkBroken, s.sinkErrors⟩ := by
  obtain ⟨cfg0, out, broken, errs⟩ := s
  replace hc : cfg0 = some ⟨INFO, defaultFormat⟩ := hc
  replace hok : broken = false := hok
  subst hc
  subst hok
  show (⟨some ⟨INFO, defaultFormat⟩,
      out ++ [render ⟨INFO, defaultFormat⟩ ts INFO m []], false, errs⟩ : LoggingState) = _
  rw [render_info]

/-- Full-state equation for `log_error` on a configured state with a
healthy sink. -/
lemma log_error_eq (m ts : String) (s : LoggingState)
    (hc : s.config = some ⟨INFO, defaultFormat⟩) (hok : s.sinkBroken = false) :
    log_error m ts s =
      ⟨s.config, s.output ++ [ts.data ++ (sep3 ++ (("ERROR").data ++ (sep3 ++ m.data)))],
        s.sinkBroken, s.sinkErrors⟩ := by
  obtain ⟨cfg0, out, broken, errs⟩ := s
  replace hc : cfg0 = some ⟨INFO, defaultFormat⟩ := hc
  replace hok : broken = false := hok
  subst hc
  subst hok
  show (⟨some ⟨INFO, defaultFormat⟩,
      out ++ [render ⟨INFO, defaultFormat⟩ ts ERROR m []], false, errs⟩ : LoggingState) = _
  rw [render_error]

/-- When `s` occurs nowhere strictly inside `pre`, splitting
`pre ++ (s ++ post)` on the first occurrence of `s` yields
`(pre, post)`. -/
lemma splitFirstAux_first (s post : List Char) (hs : s ≠ []) :
    ∀ pre, hasEarlyOccur s pre (s ++ post) = false →
      splitFirstAux s (pre ++ (s ++ post)) = some (pre, post) := by
  intro pre
  induction pre with
  | nil =>
    intro _
    cases s with
    | nil => exact absurd rfl hs
    | cons c s' =>
      have hpre : (c :: s').isPrefixOf (c :: (s' ++ post)) = true := by
        simp
      simp only [List.nil_append, List.cons_append, List.append_eq, splitFirstAux]
      rw [if_pos hpre, List.length_cons, List.drop_succ_cons, List.drop_left]
  | cons c pre ih =>
    intro h
    simp only [hasEarlyOccur, Bool.or_eq_false_iff] at h
    obtain ⟨h1, h2⟩ := h
    simp only [List.cons_append, List.append_eq, splitFirstAux]
    rw [if_neg (by simp [h1]), ih h2]

/-- The pattern `" - "` never begins inside the level name `INFO`. -/
lemma info_no_early (tail : List Char) :
    hasEarlyOccur sep3 ("INFO").data tail = false := rfl

/-- The pattern `" - "` never begins inside the level name `ERROR`. -/
lemma error_no_early (tail : List Char) :
    hasEarlyOccur sep3 ("ERROR").data tail = false := rfl

/-- A single `emit` appends at most one line. -/
lemma emit_output_length (line : List Char) (s : LoggingState) :
    (emit line s).output.length ≤ s.output.length + 1 := by
  cases hbr : s.sinkBroken
  · simp [emit, rawWrite, hbr]
  · simp [emit, rawWrite, handleError, hbr]

/-- `emit` never touches the configuration. -/
lemma emit_config (line : List Char) (s : LoggingState) :
    (emit line s).config = s.config := by
  cases hbr : s.sinkBroken
  · simp [emit, rawWrite, hbr]
  · simp [emit, rawWrite, handleError, hbr]

/-- A single logging call appends at most one line, whatever the state. -/
lemma logAt_output_length (level : Nat) (message : String) (args : List String)
    (ts : String) (s : LoggingState) :
    (logAt level message args ts s).output.length ≤ s.output.length + 1 := by
  obtain ⟨c0, out, br, er⟩ := s
  cases c0 with
  | none =>
    have h : logAt level message args ts ⟨none, out, br, er⟩ =
        if WARNING ≤ level then
          emit (render ⟨WARNING, defaultBasicFormat⟩ ts level message args)
            ⟨some ⟨WARNING, defaultBasicFormat⟩, out, br, er⟩
        else ⟨some ⟨WARNING, defaultBasicFormat⟩, out, br, er⟩ := rfl
    rw [h]
    by_cases hle : WARNING ≤ level
    · rw [if_pos hle]
      exact emit_output_length _ _
    · rw [if_neg hle]
      exact Nat.le_succ _
  | some cfg =>
    have h : logAt level message args ts ⟨some cfg, out, br, er⟩ =
        if cfg.threshold ≤ level then
          emit (render cfg ts level message args) ⟨some cfg, out, br, er⟩
        else ⟨some cfg, out, br, er⟩ := rfl
    rw [h]
    by_cases hle : cfg.threshold ≤ level
    · rw [if_pos hle]
      exact emit_output_length _ _
    · rw [if_neg hle]
      exact Nat.le_succ _

/-- A logging call on a configured state never touches the
configuration. -/
lemma logAt_config (level : Nat) (message : String) (args : List String)
    (ts : String) (s : LoggingState) (cfg : LogConfig)
    (hc : s.config = some cfg) :
    (logAt level message args ts s).config = s.config := by
  have hnoop := basicConfig_noop WARNING defaultBasicFormat s cfg hc
  simp only [logAt]
  rw [hnoop, hc]
  show (if cfg.threshold ≤ level then
      emit (render cfg ts level message args) s else s).config = some cfg
  by_cases hle : cfg.threshold ≤ level
  · rw [if_pos hle, emit_config _ s, hc]
  · rw [if_neg hle, hc]

/-- `basicConfig` writes nothing to the sink. -/
lemma basicConfig_output (l : Nat) (f : String) (s : LoggingState) :
    (basicConfig l f s).output = s.output := by
  obtain ⟨c0, out, br, er⟩ := s
  cases c0 <;> rfl

/-- Full-state equation for `log_info` on a configured state whose sink
write fails: nothing is written, the failure is counted on the handler's
own error channel, and the call still returns normally. -/
lemma log_info_broken_eq (m ts : String) (s : LoggingState)
    (hc : s.config = some ⟨INFO, defaultFormat⟩) (hbr : s.sinkBroken = true) :
    log_info m ts s = ⟨s.config, s.output, s.sinkBroken, s.sinkErrors + 1⟩ := by
  obtain ⟨cfg0, out, broken, errs⟩ := s
  replace hc : cfg0 = some ⟨INFO, defaultFormat⟩ := hc
  replace hbr : broken = true := hbr
  subst hc
  subst hbr
  rfl

/-- Full-state equation for `log_error` on a configured state whose sink
write fails. -/
lemma log_error_broken_eq (m ts : String) (s : LoggingState)
    (hc : s.config = some ⟨INFO, defaultFormat⟩) (hbr : s.sinkBroken = true) :
    log_error m ts s = ⟨s.config, s.output, s.sinkBroken, s.sinkErrors + 1⟩ := by
  obtain ⟨cfg0, out, broken, errs⟩ := s
  replace hc : cfg0 = some ⟨INFO, defaultFormat⟩ := hc
  replace hbr : broken = true := hbr
  subst hc
  subst hbr
  rfl

/-! ### Claim theorems -/

/-- Claim C1: for every text message `m` (including the empty string),
`log_info m` on the module-configured state produces exactly one rendered
output line; that line ends in `m` and its level field is the `INFO`
component between the two separators; the message is never dropped since
the configured threshold is `INFO`. -/
theorem log_info_one_line (m ts : String) (s : LoggingState)
    (hc : s.config = some ⟨INFO, defaultFormat⟩) (hok : s.sinkBroken = false) :
    (log_info m ts s).output =
      s.output ++ [ts.data ++ (sep3 ++ (("INFO").data ++ (sep3 ++ m.data)))] ∧
    m.data <:+ ts.data ++ (sep3 ++ (("INFO").data ++ (sep3 ++ m.data))) := by
  constructor
  · rw [log_info_eq m ts s hc hok]
  · have h := List.suffix_append (ts.data ++ (sep3 ++ (("INFO").data ++ sep3))) m.data
    simpa [List.append_assoc] using h

/-- Witness for C1 at a concrete message and timestamp. -/
theorem log_info_one_line_witness :
    (importModule initialState).config = some ⟨INFO, defaultFormat⟩ ∧
    (importModule initialState).sinkBroken = false ∧
    ((log_info "hello" "2024-01-01 12:00:00,123" (importModule initialState)).output =
      (importModule initialState).output ++
        [("2024-01-01 12:00:00,123").data ++
          (sep3 ++ (("INFO").data ++ (sep3 ++ ("hello").data)))] ∧
    ("hello").data <:+ ("2024-01-01 12:00:00,123").data ++
      (sep3 ++ (("INFO").data ++ (sep3 ++ ("hello").data)))) :=
  ⟨rfl, rfl, log_info_one_line "hello" "2024-01-01 12:00:00,123"
    (importModule initialState) rfl rfl⟩

/-- Claim C2: for every text message `m` (including the empty string),
`log_error m` on the module-configured state produces exactly one rendered
output line; that line ends in `m` and its level field is the `ERROR`
component between the two separators; the message is never dropped since
`ERROR` is above the configured threshold `INFO`. -/
theorem log_error_one_line (m ts : String) (s : LoggingState)
    (hc : s.config = some ⟨INFO, defaultFormat⟩) (hok : s.sinkBroken = false) :
    (log_error m ts s).output =
      s.output ++ [ts.data ++ (sep3 ++ (("ERROR").data ++ (sep3 ++ m.data)))] ∧
    m.data <:+ ts.data ++ (sep3 ++ (("ERROR").data ++ (sep3 ++ m.data))) := by
  constructor
  · rw [log_error_eq m ts s hc hok]
  · have h := List.suffix_append (ts.data ++ (sep3 ++ (("ERROR").data ++ sep3))) m.data
    simpa [List.append_assoc] using h

/-- Witness for C2 at a concrete message and timestamp. -/
theorem log_error_one_line_witness :
    (importModule initialState).config = some ⟨INFO, defaultFormat⟩ ∧
    (importModule initialState).sinkBroken = false ∧
    ((log_error "boom" "2024-01-01 12:00:00,123" (importModule initialState)).output =
      (importModule initialState).output ++
        [("2024-01-01 12:00:00,123").data ++
          (sep3 ++ (("ERROR").data ++ (sep3 ++ ("boom").data)))] ∧
    ("boom").data <:+ ("2024-01-01 12:00:00,123").data ++
      (sep3 ++ (("ERROR").data ++ (sep3 ++ ("boom").data)))) :=
  ⟨rfl, rfl, log_error_one_line "boom" "2024-01-01 12:00:00,123"
    (importModule initialState) rfl rfl⟩

/-- Claim C3: every line emitted by `log_info` or `log_error` has the
three-field shape timestamp, upper-case level name, message, joined by
exactly two `" - "` separators before the message content: splitting the
emitted line on the first two occurrences of `" - "` recovers exactly the
timestamp, the level name, and the caller's message — even when the
message itself contains `" - "` — provided the separator pattern does not
begin inside the timestamp. -/
theorem emitted_lines_three_fields (m ts : String) (s : LoggingState)
    (hc : s.config = some ⟨INFO, defaultFormat⟩) (hok : s.sinkBroken = false)
    (hts1 : hasEarlyOccur sep3 ts.data
      (sep3 ++ (("INFO").data ++ (sep3 ++ m.data))) = false)
    (hts2 : hasEarlyOccur sep3 ts.data
      (sep3 ++ (("ERROR").data ++ (sep3 ++ m.data))) = false) :
    (log_info m ts s).output =
      s.output ++ [ts.data ++ (sep3 ++ (("INFO").data ++ (sep3 ++ m.data)))] ∧
    splitTwoFields (ts.data ++ (sep3 ++ (("INFO").data ++ (sep3 ++ m.data)))) =
      some (ts.data, ("INFO").data, m.data) ∧
    (log_error m ts s).output =
      s.output ++ [ts.data ++ (sep3 ++ (("ERROR").data ++ (sep3 ++ m.data)))] ∧
    splitTwoFields (ts.data ++ (sep3 ++ (("ERROR").data ++ (sep3 ++ m.data)))) =
      some (ts.data, ("ERROR").data, m.data) := by
  have hi1 : splitFirstAux sep3
      (ts.data ++ (sep3 ++ (("INFO").data ++ (sep3 ++ m.data)))) =
      some (ts.data, ("INFO").data ++ (sep3 ++ m.data)) :=
    splitFirstAux_first sep3 (("INFO").data ++ (sep3 ++ m.data)) (by decide)
      ts.data hts1
  have hi2 : splitFirstAux sep3 (("INFO").data ++ (sep3 ++ m.data)) =
      some (("INFO").data, m.data) :=
    splitFirstAux_first sep3 m.data (by decide) ("INFO").data (info_no_early _)
  have he1 : splitFirstAux sep3
      (ts.data ++ (sep3 ++ (("ERROR").data ++ (sep3 ++ m.data)))) =
      some (ts.data, ("ERROR").data ++ (sep3 ++ m.data)) :=
    splitFirstAux_first sep3 (("ERROR").data ++ (sep3 ++ m.data)) (by decide)
      ts.data hts2
  have he2 : splitFirstAux sep3 (("ERROR").data ++ (sep3 ++ m.data)) =
      some (("ERROR").data, m.data) :=
    splitFirstAux_first sep3 m.data (by decide) ("ERROR").data (error_no_early _)
  refine ⟨?_, ?_, ?_, ?_⟩
  · rw [log_info_eq m ts s hc hok]
  · simp only [splitTwoFields, hi1, hi2]
  · rw [log_error_eq m ts s hc hok]
  · simp only [splitTwoFields, he1, he2]

/-- Witness for C3 at a concrete timestamp and a message that itself
contains the separator. -/
theorem emitted_lines_three_fields_witness :
    (importModule initialState).config = some ⟨INFO, defaultFormat⟩ ∧
    (importModule initialState).sinkBroken = false ∧
    hasEarlyOccur sep3 ("2025-01-02 03:04:05,678").data
      (sep3 ++ (("INFO").data ++ (sep3 ++ ("a - b").data))) = false ∧
    hasEarlyOccur sep3 ("2025-01-02 03:04:05,678").data
      (sep3 ++ (("ERROR").data ++ (sep3 ++ ("a - b").data))) = false ∧
    ((log_info "a - b" "2025-01-02 03:04:05,678" (importModule initialState)).output =
      (importModule initialState).output ++
        [("2025-01-02 03:04:05,678").data ++
          (sep3 ++ (("INFO").data ++ (sep3 ++ ("a - b").data)))] ∧
    splitTwoFields (("2025-01-02 03:04:05,678").data ++
        (sep3 ++ (("INFO").data ++ (sep3 ++ ("a - b").data)))) =
      some (("2025-01-02 03:04:05,678").data, ("INFO").data, ("a - b").data) ∧
    (log_error "a - b" "2025-01-02 03:04:05,678" (importModule initialState)).output =
      (importModule initialState).output ++
        [("2025-01-02 03:04:05,678").data ++
          (sep3 ++ (("ERROR").data ++ (sep3 ++ ("a - b").data)))] ∧
    splitTwoFields (("2025-01-02 03:04:05,678").data ++
        (sep3 ++ (("ERROR").data ++ (sep3 ++ ("a - b").data)))) =
      some (("2025-01-02 03:04:05,678").data, ("ERROR").data, ("a - b").data)) :=
  ⟨rfl, rfl, by decide, by decide,
    emitted_lines_three_fields "a - b" "2025-01-02 03:04:05,678"
      (importModule initialState) rfl rfl (by decide) (by decide)⟩

/-- Claim C4: on a configured state, a record whose level is below the
configured threshold is never rendered, written or buffered — the call
leaves the whole state unchanged — and conversely any call that changes
the written output has level at or above the threshold. -/
theorem below_threshold_never_written (level : Nat) (message ts : String)
    (args : List String) (s : LoggingState) (cfg : LogConfig)
    (hc : s.config = some cfg) :
    (level < cfg.threshold → logAt level message args ts s = s) ∧
    ((logAt level message args ts s).output ≠ s.output →
      cfg.threshold ≤ level) := by
  have hnoop := basicConfig_noop WARNING defaultBasicFormat s cfg hc
  have hform : logAt level message args ts s =
      if cfg.threshold ≤ level then
        emit (render cfg ts level message args) s
      else s := by
    simp only [logAt]
    rw [hnoop, hc]
  constructor
  · intro hlt
    rw [hform, if_neg (by omega)]
  · intro hne
    by_contra hnle
    exact hne (by rw [hform, if_neg hnle])

/-- Witness for C4: a DEBUG record on the module-configured state
(threshold INFO). -/
theorem below_threshold_never_written_witness :
    (importModule initialState).config = some ⟨INFO, defaultFormat⟩ ∧
    ((DEBUG < (⟨INFO, defaultFormat⟩ : LogConfig).threshold →
      logAt DEBUG "quiet" [] "2024-01-01 12:00:00,123" (importModule initialState) =
        importModule initialState) ∧
    ((logAt DEBUG "quiet" [] "2024-01-01 12:00:00,123"
        (importModule initialState)).output ≠ (importModule initialState).output →
      (⟨INFO, defaultFormat⟩ : LogConfig).threshold ≤ DEBUG)) :=
  ⟨rfl, below_threshold_never_written DEBUG "quiet" "2024-01-01 12:00:00,123" []
    (importModule initialState) ⟨INFO, defaultFormat⟩ rfl⟩

/-- Claim C5: running the file as the entry point emits exactly two
lines, the first containing `INFO` and the text
`This is an info message.`, the second containing `ERROR` and the text
`This is an error message.`, in that order, and the process exits with
status 0. -/
theorem main_emits_two_lines (ts1 ts2 : String) :
    (mainProgram ts1 ts2).2 = 0 ∧
    (mainProgram ts1 ts2).1.output =
      [ts1.data ++ (sep3 ++ (("INFO").data ++
          (sep3 ++ ("This is an info message.").data))),
        ts2.data ++ (sep3 ++ (("ERROR").data ++
          (sep3 ++ ("This is an error message.").data)))] ∧
    ("INFO").data <:+: ts1.data ++ (sep3 ++ (("INFO").data ++
      (sep3 ++ ("This is an info message.").data))) ∧
    ("This is an info message.").data <:+: ts1.data ++ (sep3 ++ (("INFO").data ++
      (sep3 ++ ("This is an info message.").data))) ∧
    ("ERROR").data <:+: ts2.data ++ (sep3 ++ (("ERROR").data ++
      (sep3 ++ ("This is an error message.").data))) ∧
    ("This is an error message.").data <:+: ts2.data ++ (sep3 ++ (("ERROR").data ++
      (sep3 ++ ("This is an error message.").data))) := by
  have hin := log_info_eq "This is an info message." ts1 (importModule initialState)
    rfl rfl
  have hcfg : (log_info "This is an info message." ts1
      (importModule initialState)).config = some ⟨INFO, defaultFormat⟩ := by
    rw [hin]
    rfl
  have hbr : (log_info "This is an info message." ts1
      (importModule initialState)).sinkBroken = false := by
    rw [hin]
    rfl
  have herr := log_error_eq "This is an error message." ts2
    (log_info "This is an info message." ts1 (importModule initialState)) hcfg hbr
  refine ⟨rfl, ?_, ?_, ?_, ?_, ?_⟩
  · show (log_error "This is an error message." ts2
      (log_info "This is an info message." ts1 (importModule initialState))).output = _
    rw [herr, hin]
    rfl
  · exact ⟨ts1.data ++ sep3, sep3 ++ ("This is an info message.").data,
      by simp [List.append_assoc]⟩
  · exact ⟨ts1.data ++ (sep3 ++ (("INFO").data ++ sep3)), [],
      by simp [List.append_assoc]⟩
  · exact ⟨ts2.data ++ sep3, sep3 ++ ("This is an error message.").data,
      by simp [List.append_assoc]⟩
  · exact ⟨ts2.data ++ (sep3 ++ (("ERROR").data ++ sep3)), [],
      by simp [List.append_assoc]⟩

/-- Claim C6: for every message `m`, `log_info` and `log_error` are total
state transformers — they never propagate an exception to their caller.
Under normal conditions (healthy sink) they complete with the line
written; when the sink's raw write fails, the failure is absorbed by the
handler's own error channel (`sinkErrors` is incremented, nothing is
written) and the call still returns a state instead of raising. -/
theorem logging_calls_never_raise (m ts : String) (s : LoggingState)
    (hc : s.config = some ⟨INFO, defaultFormat⟩) :
    (s.sinkBroken = false →
      log_info m ts s =
        ⟨s.config, s.output ++ [ts.data ++ (sep3 ++ (("INFO").data ++ (sep3 ++ m.data)))],
          s.sinkBroken, s.sinkErrors⟩ ∧
      log_error m ts s =
        ⟨s.config, s.output ++ [ts.data ++ (sep3 ++ (("ERROR").data ++ (sep3 ++ m.data)))],
          s.sinkBroken, s.sinkErrors⟩) ∧
    (s.sinkBroken = true →
      log_info m ts s = ⟨s.config, s.output, s.sinkBroken, s.sinkErrors + 1⟩ ∧
      log_error m ts s = ⟨s.config, s.output, s.sinkBroken, s.sinkErrors + 1⟩) :=
  ⟨fun hok => ⟨log_info_eq m ts s hc hok, log_error_eq m ts s hc hok⟩,
    fun hbr => ⟨log_info_broken_eq m ts s hc hbr, log_error_broken_eq m ts s hc hbr⟩⟩

/-- Witness for C6 on a configured state whose sink is broken. -/
theorem logging_calls_never_raise_witness :
    (⟨some ⟨INFO, defaultFormat⟩, [], true, 0⟩ : LoggingState).config =
      some ⟨INFO, defaultFormat⟩ ∧
    (((⟨some ⟨INFO, defaultFormat⟩, [], true, 0⟩ : LoggingState).sinkBroken = false →
      log_info "x" "2024-01-01 12:00:00,123"
          (⟨some ⟨INFO, defaultFormat⟩, [], true, 0⟩ : LoggingState) =
        ⟨(⟨some ⟨INFO, defaultFormat⟩, [], true, 0⟩ : LoggingState).config,
          (⟨some ⟨INFO, defaultFormat⟩, [], true, 0⟩ : LoggingState).output ++
            [("2024-01-01 12:00:00,123").data ++
              (sep3 ++ (("INFO").data ++ (sep3 ++ ("x").data)))],
          (⟨some ⟨INFO, defaultFormat⟩, [], true, 0⟩ : LoggingState).sinkBroken,
          (⟨some ⟨INFO, defaultFormat⟩, [], true, 0⟩ : LoggingState).sinkErrors⟩ ∧
      log_error "x" "2024-01-01 12:00:00,123"
          (⟨some ⟨INFO, defaultFormat⟩, [], true, 0⟩ : LoggingState) =
        ⟨(⟨some ⟨INFO, defaultFormat⟩, [], true, 0⟩ : LoggingState).config,
          (⟨some ⟨INFO, defaultFormat⟩, [], true, 0⟩ : LoggingState).output ++
            [("2024-01-01 12:00:00,123").data ++
              (sep3 ++ (("ERROR").data ++ (sep3 ++ ("x").data)))],
          (⟨some ⟨INFO, defaultFormat⟩, [], true, 0⟩ : LoggingState).sinkBroken,
          (⟨some ⟨INFO, defaultFormat⟩, [], true, 0⟩ : LoggingState).sinkErrors⟩) ∧
    ((⟨some ⟨INFO, defaultFormat⟩, [], true, 0⟩ : LoggingState).sinkBroken = true →
      log_info "x" "2024-01-01 12:00:00,123"
          (⟨some ⟨INFO, defaultFormat⟩, [], true, 0⟩ : LoggingState) =
        ⟨(⟨some ⟨INFO, defaultFormat⟩, [], true, 0⟩ : LoggingState).config,
          (⟨some ⟨INFO, defaultFormat⟩, [], true, 0⟩ : LoggingState).output,
          (⟨some ⟨INFO, defaultFormat⟩, [], true, 0⟩ : LoggingState).sinkBroken,
          (⟨some ⟨INFO, defaultFormat⟩, [], true, 0⟩ : LoggingState).sinkErrors + 1⟩ ∧
      log_error "x" "2024-01-01 12:00:00,123"
          (⟨some ⟨INFO, defaultFormat⟩, [], true, 0⟩ : LoggingState) =
        ⟨(⟨some ⟨INFO, defaultFormat⟩, [], true, 0⟩ : LoggingState).config,
          (⟨some ⟨INFO, defaultFormat⟩, [], true, 0⟩ : LoggingState).output,
          (⟨some ⟨INFO, defaultFormat⟩, [], true, 0⟩ : LoggingState).sinkBroken,
          (⟨some ⟨INFO, defaultFormat⟩, [], true, 0⟩ : LoggingState).sinkErrors + 1⟩)) :=
  ⟨rfl, logging_calls_never_raise "x" "2024-01-01 12:00:00,123"
    (⟨some ⟨INFO, defaultFormat⟩, [], true, 0⟩ : LoggingState) rfl⟩

/-- Claim C7: configuration is idempotent — running `basicConfig` (and in
particular the module's import-time configuration) more than once leaves
the state exactly as after the first run, and even then each
`log_info` / `log_error` invocation emits at most one line. -/
theorem configure_idempotent (l1 l2 : Nat) (f1 f2 : String) (m ts : String)
    (s : LoggingState) :
    basicConfig l2 f2 (basicConfig l1 f1 s) = basicConfig l1 f1 s ∧
    importModule (importModule s) = importModule s ∧
    (log_info m ts (importModule (importModule s))).output.length ≤
      (importModule (importModule s)).output.length + 1 ∧
    (log_error m ts (importModule (importModule s))).output.length ≤
      (importModule (importModule s)).output.length + 1 := by
  refine ⟨?_, ?_, logAt_output_length INFO m [] ts _, logAt_output_length ERROR m [] ts _⟩
  · obtain ⟨c0, out, br, er⟩ := s
    cases c0 <;> rfl
  · obtain ⟨c0, out, br, er⟩ := s
    cases c0 <;> rfl

/-- Claim C8: configuration alone emits nothing — importing the module
(running only `basicConfig`) leaves the written output unchanged, and
from the pristine initial state zero lines have been produced. -/
theorem zero_calls_zero_lines (s : LoggingState) :
    (importModule s).output = s.output ∧ (importModule initialState).output = [] :=
  ⟨basicConfig_output INFO defaultFormat s, rfl⟩

/-- Claim C9: frame property — on a configured state, `log_info` and
`log_error` leave the logger configuration (threshold and format
template) unchanged, and re-running the import-time configuration is a
no-op: the configuration is written once and only read thereafter. -/
theorem logging_frame_config (m ts : String) (s : LoggingState) (cfg : LogConfig)
    (hc : s.config = some cfg) :
    (log_info m ts s).config = s.config ∧
    (log_error m ts s).config = s.config ∧
    importModule s = s :=
  ⟨logAt_config INFO m [] ts s cfg hc, logAt_config ERROR m [] ts s cfg hc,
    basicConfig_noop INFO defaultFormat s cfg hc⟩

/-- Witness for C9 on the module-configured state. -/
theorem logging_frame_config_witness :
    (importModule initialState).config = some ⟨INFO, defaultFormat⟩ ∧
    ((log_info "m" "2024-01-01 12:00:00,123" (importModule initialState)).config =
      (importModule initialState).config ∧
    (log_error "m" "2024-01-01 12:00:00,123" (importModule initialState)).config =
      (importModule initialState).config ∧
    importModule (importModule initialState) = importModule initialState) :=
  ⟨rfl, logging_frame_config "m" "2024-01-01 12:00:00,123"
    (importModule initialState) ⟨INFO, defaultFormat⟩ rfl⟩

/-- Claim C10: because `log_info` and `log_error` pass the caller's
string to the logger with no format arguments, `record.getMessage`
returns it verbatim — no `%`-interpolation is applied even when the
message contains printf-style directives such as `%s` or `%d` — and the
rendered message field equals the input string exactly. -/
theorem percent_directives_verbatim (m ts : String) (s : LoggingState)
    (hc : s.config = some ⟨INFO, defaultFormat⟩) (hok : s.sinkBroken = false) :
    getMessage m [] = m.data ∧
    (log_info m ts s).output =
      s.output ++ [ts.data ++ (sep3 ++ (("INFO").data ++ (sep3 ++ m.data)))] ∧
    (log_error m ts s).output =
      s.output ++ [ts.data ++ (sep3 ++ (("ERROR").data ++ (sep3 ++ m.data)))] := by
  refine ⟨rfl, ?_, ?_⟩
  · rw [log_info_eq m ts s hc hok]
  · rw [log_error_eq m ts s hc hok]

/-- Witness for C10 at a message full of printf-style directives. -/
theorem percent_directives_verbatim_witness :
    (importModule initialState).config = some ⟨INFO, defaultFormat⟩ ∧
    (importModule initialState).sinkBroken = false ∧
    (getMessage "done %s at %d%%" [] = ("done %s at %d%%").data ∧
    (log_info "done %s at %d%%" "2024-01-01 12:00:00,123"
        (importModule initialState)).output =
      (importModule initialState).output ++
        [("2024-01-01 12:00:00,123").data ++
          (sep3 ++ (("INFO").data ++ (sep3 ++ ("done %s at %d%%").data)))] ∧
    (log_error "done %s at %d%%" "2024-01-01 12:00:00,123"
        (importModule initialState)).output =
      (importModule initialState).output ++
        [("2024-01-01 12:00:00,123").data ++
          (sep3 ++ (("ERROR").data ++ (sep3 ++ ("done %s at %d%%").data)))]) :=
  ⟨rfl, rfl, percent_directives_verbatim "done %s at %d%%"
    "2024-01-01 12:00:00,123" (importModule initialState) rfl rfl⟩

end LoggingUtils
